import Mathlib

set_option autoImplicit false

/- Verification development for the document_extract_api repository.

   The Python sources are shallowly embedded: Python floats are modelled as
   exact rationals, machine collaborators (embedding model, vector index,
   OCR engine, HTTP client, JSON library) as explicit oracle parameters,
   and every fallible Python call as an `Except`/`Option` value.  Catching
   an exception in the source corresponds to matching on the `.error`
   constructor here. -/

namespace DocExtract

/-! ## Python rounding

`round(x, 2)` in Python rounds half to even (banker's rounding).  We model
it exactly on rationals: scale by 100, round half to even to an integer,
divide by 100. -/

/-- Python `round(q)`: round half to even, to an integer.  Written on the
numerator/denominator so that the kernel can evaluate it: with `q = a/b`
(`b > 0`), `f = ⌊q⌋ = a.fdiv b` and the fractional part `r/b` compares to
`1/2` as `2*r` compares to `b`. -/
def pyRoundInt (q : ℚ) : ℤ :=
  let a := q.num
  let b := (q.den : ℤ)
  let f := a.fdiv b
  let r := a - f * b
  if 2 * r < b then f
  else if b < 2 * r then f + 1
  else if f % 2 = 0 then f else f + 1

/-- Python `round(q, 2)`. -/
def round2 (q : ℚ) : ℚ := (pyRoundInt (q * 100) : ℚ) / 100

/-! ## core/vector_db.py -/

/-- The dictionary returned by `collection.query(query_embeddings=[e], n_results=1)`
(src/core/vector_db.py lines 72-75).  Metadata dictionaries are string-keyed
association lists with string values, which is what `build_vector_db.py`
stores. -/
structure QueryRes where
  ids : List (List String)
  distances : List (List ℚ)
  metadatas : List (List (List (String × String)))

/-- The dictionary returned by `VectorDBClient.find_document_type`: either
`{"document_type": ..., "confidence": ...}` or `{"error": ...}`. -/
inductive ClsResult where
  | ok (document_type : String) (confidence : ℚ)
  | err (msg : String)
deriving DecidableEq

/-- The state of a `VectorDBClient` after `__init__`/`_load`
(src/core/vector_db.py lines 17-49).  The loaded model and collection
handles carry no data relevant to the claims, so they are `Option Unit`:
`none` models the Python attribute still being `None`. -/
structure VectorDBClient where
  embedding_model : Option Unit
  collection : Option Unit
deriving DecidableEq

/-- How far `_load` (src/core/vector_db.py lines 35-49) gets before an
exception, if any: `SentenceTransformer(...)` may throw, and
`get_collection` may throw after the model was assigned.  On any
exception the handler sets `collection = None`. -/
inductive LoadOutcome where
  | ok
  | failAtModel
  | failAtCollection

/-- `_load` (src/core/vector_db.py lines 35-49) as a function of the
outcome of the two fallible collaborator calls. -/
def loadClient : LoadOutcome → VectorDBClient
  | .ok => ⟨some (), some ()⟩
  | .failAtModel => ⟨none, none⟩
  | .failAtCollection => ⟨some (), none⟩

/-- Python `xs[0]` on a list: an empty list raises `IndexError`, which the
surrounding `try` in `find_document_type` turns into the generic query
error. -/
def pyIndex0 {α : Type} : List α → Except String α
  | [] => .error "IndexError"
  | a :: _ => .ok a

/-- The body of the `try` block of `find_document_type`
(src/core/vector_db.py lines 66-91): embed the text, query for one
neighbor, on `ids[0] == []` return Unknown/0.0, otherwise read
`distances[0][0]` and `metadatas[0][0]` and build the result with
`confidence = round(1 - distance, 2)` and
`doc_type = metadata.get('document_type', 'Unknown')`. -/
def queryAttempt (embed : String → Except String (List ℚ))
    (query : List ℚ → Except String QueryRes) (text : String) :
    Except String ClsResult := do
  let query_embedding ← embed text
  let results ← query query_embedding
  let ids0 ← pyIndex0 results.ids
  if ids0.isEmpty then
    pure (.ok "Unknown" 0)
  else
    let distances0 ← pyIndex0 results.distances
    let distance ← pyIndex0 distances0
    let metadatas0 ← pyIndex0 results.metadatas
    let metadata ← pyIndex0 metadatas0
    let doc_type := (metadata.lookup "document_type").getD "Unknown"
    pure (.ok doc_type (round2 (1 - distance)))

/-- `find_document_type` (src/core/vector_db.py lines 52-95).  The method
does not assign any attribute of `self`, so it returns the client
unchanged alongside the result dictionary. -/
def findDocumentType (c : VectorDBClient)
    (embed : String → Except String (List ℚ))
    (query : List ℚ → Except String QueryRes)
    (text : String) : ClsResult × VectorDBClient :=
  match c.collection with
  | none => (.err "Vector database collection is not available.", c)
  | some _ =>
    (match queryAttempt embed query text with
     | .ok r => r
     | .error _ => .err "Failed to query the vector database.", c)

/-! ### Claims C1, C2, C8 -/

/-- C1: when the classifier is Ready and the nearest-neighbor query returns
exactly one neighbor with cosine distance d and metadata m,
`find_document_type` returns document_type `m.get('document_type')`
(defaulting to "Unknown" if the key is absent, without failing) and
confidence `round(1 - d, 2)`; and when the query returns zero neighbors it
returns `{"Unknown", 0.0}`. -/
theorem find_document_type_classifies
    (c : VectorDBClient) (hc : c.collection = some ())
    (embed : String → Except String (List ℚ))
    (query : List ℚ → Except String QueryRes)
    (text : String) (emb : List ℚ) (he : embed text = .ok emb) :
    (∀ i d m, query emb = .ok ⟨[[i]], [[d]], [[m]]⟩ →
      (findDocumentType c embed query text).1
        = .ok ((m.lookup "document_type").getD "Unknown") (round2 (1 - d))) ∧
    (query emb = .ok ⟨[[]], [[]], [[]]⟩ →
      (findDocumentType c embed query text).1 = .ok "Unknown" 0) := by
  obtain ⟨em, col⟩ := c
  cases col with
  | none => exact absurd hc (by simp)
  | some u =>
    constructor
    · intro i d m hq
      simp [findDocumentType, queryAttempt, he, hq, pyIndex0, bind, Except.bind,
        pure, Except.pure]
    · intro hq
      simp [findDocumentType, queryAttempt, he, hq, pyIndex0, bind, Except.bind,
        pure, Except.pure]

/-- A concrete Ready client, embedding oracle and one-neighbor query oracle
used as witness inputs. -/
def embed1 : String → Except String (List ℚ) := fun _ => .ok [1, 0]

def query1 : List ℚ → Except String QueryRes :=
  fun _ => .ok ⟨[["id_0"]], [[(3 : ℚ)/20]], [[[("document_type", "invoice")]]]⟩

section RatEval

/- Batteries marks the `Rat` field operations `@[irreducible]`, which blocks
kernel evaluation in `decide`; restore reducibility locally for the concrete
evaluations below. -/
set_option allowUnsafeReducibility true
attribute [local semireducible] Rat.sub Rat.add Rat.mul Rat.inv

theorem find_document_type_classifies_witness :
    embed1 "some text" = .ok [1, 0] ∧
    query1 [1, 0] = .ok ⟨[["id_0"]], [[(3 : ℚ)/20]], [[[("document_type", "invoice")]]]⟩ ∧
    (findDocumentType ⟨some (), some ()⟩ embed1 query1 "some text").1
      = .ok "invoice" (17/20) := by
  refine ⟨rfl, rfl, ?_⟩
  have h := (find_document_type_classifies ⟨some (), some ()⟩ rfl embed1 query1
      "some text" [1, 0] rfl).1 "id_0" ((3 : ℚ)/20) [("document_type", "invoice")] rfl
  rw [h]
  decide

/-- C2 (code bug): the response schema and the spec type the classification
confidence as a float in [0,1], but `find_document_type` computes
`round(1 - d, 2)` where the cosine distance d of the nearest neighbor can
exceed 1 (it ranges over [0,2]).  At distance 3/2 the code returns
confidence -1/2, which is negative. -/
theorem find_document_type_negative_confidence :
    (findDocumentType ⟨some (), some ()⟩ embed1
        (fun _ => .ok ⟨[["id_0"]], [[(3 : ℚ)/2]], [[[("document_type", "invoice")]]]⟩)
        "some text").1 = .ok "invoice" (-(1/2))
    ∧ (-(1/2) : ℚ) < 0 := by
  constructor
  · decide
  · norm_num

end RatEval

/-- C8: if loading the model or the collection fails at startup the client
is Unavailable (`collection = None`); every call to `find_document_type`
on an Unavailable client returns exactly the availability error without
consulting the embedding or query oracles (the result and the state are
the same for every oracle), and returns the client unchanged, so no
operation transitions it back to Ready. -/
theorem classifier_unavailable_invariant :
    ((loadClient .failAtModel).collection = none
      ∧ (loadClient .failAtCollection).collection = none) ∧
    ∀ (c : VectorDBClient), c.collection = none →
      ∀ embed query text,
        findDocumentType c embed query text
          = (.err "Vector database collection is not available.", c) := by
  refine ⟨⟨rfl, rfl⟩, ?_⟩
  rintro ⟨em, col⟩ h embed query text
  cases col with
  | none => rfl
  | some u => exact absurd h (by simp)

theorem classifier_unavailable_invariant_witness :
    (⟨none, none⟩ : VectorDBClient).collection = none ∧
    findDocumentType ⟨none, none⟩ embed1 query1 "some text"
      = (.err "Vector database collection is not available.", ⟨none, none⟩) :=
  ⟨rfl, classifier_unavailable_invariant.2 ⟨none, none⟩ rfl embed1 query1 "some text"⟩

/-! ## core/ocr.py

The OCR engine, the PDF rasterizer, the image decoder and the three image
transforms are external collaborators; they appear as oracle fields of
`OcrEnv`, each returning `Except` because the corresponding Python call
can raise.  Bytes are modelled as `List ℕ`, images by an arbitrary type
`Img`. -/

/-- Components of a POSIX path string split on `/`. -/
def splitOnChar (c : Char) (cs : List Char) : List (List Char) :=
  cs.foldr (fun x acc =>
    if x = c then [] :: acc
    else match acc with
      | [] => [[x]]
      | a :: as => (x :: a) :: as) [[]]

/-- `pathlib.Path(s).name`: the last nonempty `/`-separated component.
(`.`-components of relative paths are not normalized here; the filenames
in the claims contain none.) -/
def pyNameChars (s : String) : List Char :=
  ((splitOnChar '/' s.toList).filter (fun comp => comp ≠ [])).getLastD []

/-- Index of the last `.` in a character list, if any. -/
def lastDotIdx (cs : List Char) : Option ℕ :=
  (((cs.enum).filter (fun p => p.2 = '.')).getLast?).map (fun p => p.1)

/-- `pathlib.Path(s).suffix`: `name[i:]` for the last dot position `i`
when `0 < i < len(name) - 1`, else the empty string. -/
def pySuffix (s : String) : String :=
  let nm := pyNameChars s
  match lastDotIdx nm with
  | none => ""
  | some i => if 0 < i ∧ i + 1 < nm.length then (nm.drop i).asString else ""

/-- Python `str.lower()` restricted to ASCII, which is all the suffix set
uses. -/
def toLowerStr (s : String) : String := (s.toList.map Char.toLower).asString

/-- src/core/ocr.py lines 18-20. -/
def SUPPORTED_PDF_FORMATS : List String := [".pdf"]

def SUPPORTED_IMAGE_FORMATS : List String := [".png", ".jpg", ".jpeg", ".bmp", ".tiff"]

def SUPPORTED_FORMATS : List String := SUPPORTED_PDF_FORMATS ++ SUPPORTED_IMAGE_FORMATS

/-- External collaborators of `extract_text_from_document`.  `openPdf`
models `pymupdf.open(stream=..., filetype="pdf")` returning the list of
page handles; `renderPage` models `page.get_pixmap(dpi=400)` plus
`Image.frombytes`; `decodeImage` models `Image.open(io.BytesIO(...))`;
the three transforms model `core.utils.deskew`, `noise_reduction` and
`adaptive_thresholding`; `recognize` models the PNG re-encoding plus
`reader.readtext(img_bytes, detail=0)`. -/
structure OcrEnv (Img : Type) where
  openPdf : List ℕ → Except String (List ℕ)
  renderPage : ℕ → Except String Img
  decodeImage : List ℕ → Except String Img
  deskewT : Img → Except String Img
  noiseT : Img → Except String Img
  threshT : Img → Except String Img
  recognize : Img → Except String (List String)

/-- The `elif` dispatch on the `preprocessing` argument
(src/core/ocr.py lines 89-94 and 114-119): the recognized keywords are
`'deskew'`, `'noise'` and `'threshold'`; any other value (including
`None`) applies no transform. -/
def applyPreprocessing {Img : Type} (env : OcrEnv Img)
    (preprocessing : Option String) (img : Img) : Except String Img :=
  if preprocessing = some "deskew" then env.deskewT img
  else if preprocessing = some "noise" then env.noiseT img
  else if preprocessing = some "threshold" then env.threshT img
  else .ok img

/-- The body of the per-page `try` block (src/core/ocr.py lines 83-102):
rasterize, optionally preprocess, recognize. -/
def processPdfPage {Img : Type} (env : OcrEnv Img)
    (preprocessing : Option String) (page : ℕ) : Except String (List String) := do
  let img ← env.renderPage page
  let img2 ← applyPreprocessing env preprocessing img
  env.recognize img2

/-- `extract_text_from_document` (src/core/ocr.py lines 33-133).  The
suffix dispatch, the whole-document `try` on `pymupdf.open`, the per-page
`try`/`continue` (a failing page contributes no blocks), the
whole-image `try` returning the empty string, and the final
newline-join. -/
def extract_text_from_document {Img : Type} (env : OcrEnv Img)
    (file_bytes : List ℕ) (filename : String)
    (preprocessing : Option String) : String :=
  let file_suffix := toLowerStr (pySuffix filename)
  if file_suffix ∈ SUPPORTED_PDF_FORMATS then
    match env.openPdf file_bytes with
    | .error _ => ""
    | .ok pages =>
      String.intercalate "\n" (pages.flatMap (fun p =>
        match processPdfPage env preprocessing p with
        | .ok blocks => blocks
        | .error _ => []))
  else if file_suffix ∈ SUPPORTED_IMAGE_FORMATS then
    match (do
        let img ← env.decodeImage file_bytes
        let img2 ← applyPreprocessing env preprocessing img
        env.recognize img2 : Except String (List String)) with
    | .ok blocks => String.intercalate "\n" blocks
    | .error _ => ""
  else
    String.intercalate "\n" ([] : List String)

/-! ### Claims C4, C5 -/

/-- C4: an unsupported extension (compared case-insensitively) yields
exactly the empty string; the function is total over every oracle
behavior (no exception escapes), and each failure class degrades to an
empty result: a PDF that fails to open yields "", an image that fails to
decode/recognize yields "", and a PDF all of whose pages fail yields "".
-/
theorem extract_text_soft_fail {Img : Type} (env : OcrEnv Img)
    (file_bytes : List ℕ) (filename : String) (preprocessing : Option String) :
    (toLowerStr (pySuffix filename) ∉ SUPPORTED_FORMATS →
      extract_text_from_document env file_bytes filename preprocessing = "") ∧
    (toLowerStr (pySuffix filename) ∈ SUPPORTED_PDF_FORMATS →
      ∀ e, env.openPdf file_bytes = .error e →
        extract_text_from_document env file_bytes filename preprocessing = "") ∧
    (toLowerStr (pySuffix filename) ∈ SUPPORTED_IMAGE_FORMATS →
      ∀ e, env.decodeImage file_bytes = .error e →
        extract_text_from_document env file_bytes filename preprocessing = "") ∧
    (toLowerStr (pySuffix filename) ∈ SUPPORTED_PDF_FORMATS →
      ∀ pages, env.openPdf file_bytes = .ok pages →
        (∀ p ∈ pages, ∃ e, processPdfPage env preprocessing p = .error e) →
        extract_text_from_document env file_bytes filename preprocessing = "") := by
  have hdisj : ∀ s : String, s ∈ SUPPORTED_PDF_FORMATS → s ∈ SUPPORTED_IMAGE_FORMATS → False := by
    intro s h1 h2
    simp [SUPPORTED_PDF_FORMATS] at h1
    simp [SUPPORTED_IMAGE_FORMATS, h1] at h2
  refine ⟨?_, ?_, ?_, ?_⟩
  · intro h
    rw [SUPPORTED_FORMATS, List.mem_append] at h
    push_neg at h
    simp [extract_text_from_document, h.1, h.2]
    rfl
  · intro h e he
    simp [extract_text_from_document, h, he]
  · intro h e he
    have hnp : toLowerStr (pySuffix filename) ∉ SUPPORTED_PDF_FORMATS :=
      fun hp => hdisj _ hp h
    simp [extract_text_from_document, h, hnp, he, bind, Except.bind]
  · intro h pages hpg hall
    have haux : ∀ l : List ℕ,
        (∀ p ∈ l, ∃ e, processPdfPage env preprocessing p = .error e) →
        l.flatMap (fun p =>
          match processPdfPage env preprocessing p with
          | .ok blocks => blocks
          | .error _ => []) = [] := by
      intro l
      induction l with
      | nil => intro _; rfl
      | cons q qs ih =>
        intro hl
        obtain ⟨e, he⟩ := hl q (by simp)
        simp only [List.flatMap_cons, he]
        exact ih (fun p hp => hl p (List.mem_cons_of_mem _ hp))
    simp [extract_text_from_document, h, hpg, haux pages hall]
    rfl

/-- An environment in which every collaborator call fails, over the unit
image type: witness input for the soft-fail claim. -/
def envErr : OcrEnv Unit :=
  { openPdf := fun _ => .error "open failed"
    renderPage := fun _ => .error "render failed"
    decodeImage := fun _ => .error "decode failed"
    deskewT := fun _ => .error "deskew failed"
    noiseT := fun _ => .error "noise failed"
    threshT := fun _ => .error "threshold failed"
    recognize := fun _ => .error "readtext failed" }

theorem extract_text_soft_fail_witness :
    extract_text_from_document envErr [7] "doc.txt" none = "" ∧
    extract_text_from_document envErr [7] "doc.PDF" none = "" ∧
    extract_text_from_document envErr [7] "scan.PNG" none = "" :=
  ⟨(extract_text_soft_fail envErr [7] "doc.txt" none).1 (by decide),
   (extract_text_soft_fail envErr [7] "doc.PDF" none).2.1 (by decide) "open failed" rfl,
   (extract_text_soft_fail envErr [7] "scan.PNG" none).2.2.1 (by decide) "decode failed" rfl⟩

/-- A distinguishing environment over `Img := ℕ`: the decoded image is
`0`, each transform shifts it by a different amount, and recognition
reports the image value, so the result shows which transform ran. -/
def envC5 : OcrEnv ℕ :=
  { openPdf := fun _ => .error "pdf"
    renderPage := fun _ => .error "page"
    decodeImage := fun _ => .ok 0
    deskewT := fun n => .ok (n + 10)
    noiseT := fun n => .ok (n + 1)
    threshT := fun n => .ok (n + 2)
    recognize := fun n => .ok [toString n] }

/-- C5 counterexample: with the spec's option name `'denoise'` the code
applies no transform at all (the dispatch keywords are `'deskew'`,
`'noise'`, `'threshold'`): recognition sees the unmodified image `0`,
not the median-filtered image `1` that the keyword `'noise'` produces. -/
theorem preprocessing_denoise_not_dispatched :
    extract_text_from_document envC5 [0] "a.png" (some "denoise") = "0" ∧
    extract_text_from_document envC5 [0] "a.png" (some "noise") = "1" ∧
    ("0" : String) ≠ "1" := by
  refine ⟨rfl, rfl, by decide⟩

/-- C5 amended: the recognized preprocessing options are `None`,
`'noise'` (median-filter denoise), `'threshold'` (adaptive thresholding)
and `'deskew'`; each applies the correspondingly named transform to the
page or image before recognition, and any other string (including the
spec's `'denoise'`) applies no transform. -/
theorem preprocessing_dispatch {Img : Type} (env : OcrEnv Img) (img : Img) :
    applyPreprocessing env (some "deskew") img = env.deskewT img ∧
    applyPreprocessing env (some "noise") img = env.noiseT img ∧
    applyPreprocessing env (some "threshold") img = env.threshT img ∧
    applyPreprocessing env none img = .ok img ∧
    (∀ s : String, s ∉ (["deskew", "noise", "threshold"] : List String) →
      applyPreprocessing env (some s) img = .ok img) ∧
    (∀ preprocessing page, env.renderPage page = .ok img →
      processPdfPage env preprocessing page
        = applyPreprocessing env preprocessing img >>= env.recognize) ∧
    (∀ file_bytes filename preprocessing,
      toLowerStr (pySuffix filename) ∈ SUPPORTED_IMAGE_FORMATS →
      env.decodeImage file_bytes = .ok img →
        extract_text_from_document env file_bytes filename preprocessing
          = match applyPreprocessing env preprocessing img >>= env.recognize with
            | .ok blocks => String.intercalate "\n" blocks
            | .error _ => "") := by
  have hdisj : ∀ s : String, s ∈ SUPPORTED_PDF_FORMATS → s ∈ SUPPORTED_IMAGE_FORMATS → False := by
    intro s h1 h2
    simp [SUPPORTED_PDF_FORMATS] at h1
    simp [SUPPORTED_IMAGE_FORMATS, h1] at h2
  refine ⟨rfl, rfl, rfl, rfl, ?_, ?_, ?_⟩
  · intro s hs
    simp only [List.mem_cons, List.not_mem_nil, or_false, not_or] at hs
    simp [applyPreprocessing, hs.1, hs.2.1, hs.2.2]
  · intro preprocessing page hp
    simp [processPdfPage, hp, bind, Except.bind]
  · intro file_bytes filename preprocessing hext hdec
    have hnp : toLowerStr (pySuffix filename) ∉ SUPPORTED_PDF_FORMATS :=
      fun hp => hdisj _ hp hext
    simp only [extract_text_from_document, if_neg hnp, if_pos hext, bind, Except.bind, hdec]

theorem preprocessing_dispatch_witness :
    applyPreprocessing envC5 (some "noise") 0 = envC5.noiseT 0 ∧
    (("denoise" : String) ∉ (["deskew", "noise", "threshold"] : List String)) ∧
    applyPreprocessing envC5 (some "denoise") 0 = .ok 0 ∧
    extract_text_from_document envC5 [0] "a.png" (some "noise")
      = match applyPreprocessing envC5 (some "noise") 0 >>= envC5.recognize with
        | .ok blocks => String.intercalate "\n" blocks
        | .error _ => "" := by
  have h := preprocessing_dispatch envC5 0
  exact ⟨h.2.1, by decide,
    h.2.2.2.2.1 "denoise" (by decide),
    h.2.2.2.2.2.2 [0] "a.png" (some "noise") (by decide) rfl⟩

/-! ## core/utils.py — deskew

`noise_reduction` and `adaptive_thresholding` are total pixel transforms;
the claims that need settling concern `deskew`, which is embedded
concretely enough to expose its two failure points: the empty point set
handed to `cv2.minAreaRect`, and the `(h, w) = image.size` dimension
swap. -/

/-- A grayscale image: `pix y x` is the value of row `y`, column `x`,
in `0..255`. -/
structure GrayImage where
  width : ℕ
  height : ℕ
  pix : ℕ → ℕ → ℕ

/-- `np.column_stack(np.where(cv2.bitwise_not(gray) > 0))`
(src/core/utils.py lines 93-96): the (row, col) coordinates, in
row-major order, of the pixels whose inverted value `255 - v` is
positive, i.e. whose grayscale value is below 255 — the "ink" pixels. -/
def inkCoords (image : GrayImage) : List (ℕ × ℕ) :=
  (List.range image.height).flatMap (fun y =>
    (List.range image.width).filterMap (fun x =>
      if image.pix y x < 255 then some (y, x) else none))

/-- What `deskew` hands to `cv2.warpAffine`: the corrected rotation
angle, the center passed to `getRotationMatrix2D`, the output size
`dsize` (`warpAffine` returns an image of exactly these dimensions), and
the interpolation/border flags. -/
structure DeskewOut where
  angle : ℚ
  center : ℕ × ℕ
  outWidth : ℕ
  outHeight : ℕ
  flags : String
  borderMode : String
deriving DecidableEq

/-- `deskew` (src/core/utils.py lines 75-121).  `cv2.minAreaRect` is the
OpenCV collaborator; only the angle of the returned rectangle is used, so
it is the oracle `minAreaRectAngle`.  On an empty coordinate list
`cv2.minAreaRect` raises `cv2.error`, modelled as `none`.  Line 110 reads
`(h, w) = image.size`; PIL's `size` is `(width, height)`, so `h` is bound
to the image's width and `w` to its height, and both the rotation center
`(w // 2, h // 2)` and the `warpAffine` output size `(w, h)` come out
transposed for non-square images. -/
def deskew (minAreaRectAngle : List (ℕ × ℕ) → ℚ) (image : GrayImage) :
    Option DeskewOut :=
  let coords := inkCoords image
  if coords.isEmpty then
    none
  else
    let rawAngle := minAreaRectAngle coords
    let angle := if rawAngle < -45 then -(90 + rawAngle) else -rawAngle
    let h := image.width
    let w := image.height
    let center := (w / 2, h / 2)
    some { angle := angle, center := center, outWidth := w, outHeight := h,
           flags := "INTER_CUBIC", borderMode := "BORDER_REPLICATE" }

/-! ### Claims C6, C9 -/

/-- A 4×4 all-white image: well-formed, but without any ink pixel. -/
def blankImage : GrayImage := ⟨4, 4, fun _ _ => 255⟩

/-- A 4-wide, 2-high image with a single ink pixel at row 0, column 0. -/
def imgWide : GrayImage := ⟨4, 2, fun y x => if y = 0 ∧ x = 0 then 0 else 255⟩

/-- C6 (code bug): on a blank image the ink-coordinate list is empty, so
`deskew` hands `cv2.minAreaRect` an empty point set and raises
(modelled: `none`) — violating the contract that no transform may throw
for a well-formed image.  The result is `none` before the angle oracle
is ever consulted. -/
theorem deskew_blank_image_raises :
    inkCoords blankImage = [] ∧ deskew (fun _ => 0) blankImage = none := by
  decide

/-- C9 (code bug): for the non-square 4×2 image with raw angle −30,
`deskew` uses corrected angle 30 (the normalization itself matches the
claim) but, because line 110 binds `(h, w)` to PIL's `(width, height)`,
it rotates about `(height // 2, width // 2) = (1, 2)` instead of
`(width // 2, height // 2) = (2, 1)`, and the `warpAffine` output is
2 wide × 4 high instead of matching the input's 4 wide × 2 high. -/
theorem deskew_swaps_center_and_dims :
    deskew (fun _ => -30) imgWide
      = some { angle := 30, center := (1, 2), outWidth := 2, outHeight := 4,
               flags := "INTER_CUBIC", borderMode := "BORDER_REPLICATE" } ∧
    imgWide.width = 4 ∧ imgWide.height = 2 := by
  decide

/-! ## core/llm.py

`requests.post` and `json.loads` are collaborators: the HTTP call appears
as an oracle from call number and prompt to an outcome, and the JSON
parser as an oracle from strings to parsed values. -/

/-- A parsed JSON value, as produced by `json.loads`. -/
inductive JVal where
  | null
  | bool (b : Bool)
  | num (q : ℚ)
  | str (s : String)
  | arr (elems : List JVal)
  | obj (fields : List (String × JVal))

/-- The Python dictionary `{"error": msg}`. -/
def errObj (msg : String) : JVal := .obj [("error", .str msg)]

/-- `DOCUMENT_SCHEMAS` (src/core/llm.py lines 24-42), verbatim. -/
def DOCUMENT_SCHEMAS : List (String × List String) := [
  ("advertisement", ["product_or_service_name", "brand_name", "slogan_or_headline", "call_to_action", "contact_info", "offer_or_discount"]),
  ("budget", ["budget_title", "time_period", "total_income", "total_expenses", "net_balance"]),
  ("email", ["sender_name", "sender_email", "recipient_name", "recipient_email", "subject", "date_sent", "summary"]),
  ("file_folder", ["folder_label"]),
  ("form", ["form_title", "full_name", "date_of_birth", "address"]),
  ("handwritten", ["title", "author", "date", "summary_of_content"]),
  ("invoice", ["invoice_number", "vendor_name", "customer_name", "date", "total_amount"]),
  ("letter", ["sender_name", "sender_address", "recipient_name", "recipient_address", "date", "salutation", "closing"]),
  ("memo", ["to", "from", "date", "subject", "cc"]),
  ("news_article", ["headline", "author", "publication_name", "publication_date", "summary"]),
  ("presentation", ["presentation_title", "presenter_name", "event_or_conference_name", "date", "key_topics"]),
  ("questionnaire", ["questionnaire_title", "issuing_organization", "list_of_questions"]),
  ("receipt", ["store_name", "date", "total_amount", "items"]),
  ("resume", ["candidate_name", "contact_email", "contact_phone", "summary_or_objective", "skills"]),
  ("scientific_publication", ["title", "authors", "journal_name", "publication_date", "doi", "abstract"]),
  ("scientific_report", ["report_title", "authors", "reporting_organization", "report_date", "report_number", "summary"]),
  ("specification", ["document_title", "document_id_or_version", "authoring_organization", "effective_date", "product_or_system_name"])]

/-- `PROMPT_TEMPLATE.format(...)` (src/core/llm.py lines 10-20 and
63-67): the formatted prompt, with the field list comma-joined. -/
def promptFor (document_type : String) (field_list : List String)
    (document_text : String) : String :=
  "\nGiven the following text extracted from a document of type \x27"
    ++ document_type
    ++ "\x27, extract the following fields: "
    ++ String.intercalate ", " field_list
    ++ ".\nReturn your response as a valid JSON object.\nFor each field, provide a nested JSON object with two keys: \"value\" which is the extracted information (or null if not found), and \"confidence\" which is your estimated confidence score from 0.0 to 1.0 that the value is correct based on the text.\nProvide no additional text, commentary, or explanation outside of the JSON object.\n\nDocument Text:\n---\n"
    ++ document_text ++ "\n---\n"

/-- The outcome of one `requests.post(OLLAMA_API_URL, json=payload,
timeout=180)` call together with `raise_for_status()` and
`response.json()`: `requestError` covers connection failures, timeouts,
non-2xx statuses and an unparsable body — all raised as
`requests.exceptions.RequestException` subclasses and caught by the
first `except` — while `ok` carries the `'response'` field of the parsed
Ollama envelope when present (the envelope's contract is that it holds
the model's raw text payload). -/
inductive PostOutcome where
  | requestError (msg : String)
  | ok (responseField : Option String)

/-- `extract_entities_with_llm` (src/core/llm.py lines 45-92).  `post n
prompt` is the outcome the HTTP collaborator would give the n-th call;
the source makes exactly one call, `post 0 prompt`.  The `rf.getD`
default models `.get('response', '{}')` on the envelope (the default is
the two-character string "{}", written with escapes), and `jsonParse`
models `json.loads`, whose failure the second `except` turns into the
malformed-response dictionary. -/
def extract_entities_with_llm (post : ℕ → String → PostOutcome)
    (jsonParse : String → Option JVal)
    (document_text document_type : String) : JVal :=
  match DOCUMENT_SCHEMAS.lookup (toLowerStr document_type) with
  | none => .obj []
  | some field_list =>
    let prompt := promptFor document_type field_list document_text
    match post 0 prompt with
    | .requestError _ => errObj "Failed to connect to the local LLM service."
    | .ok rf =>
      let response_text := rf.getD "\x7b\x7d"
      match jsonParse response_text with
      | none => errObj "LLM returned a malformed response."
      | some j => j

/-- The entity-stage error check of the API endpoint
(src/api/endpoints.py lines 64-66): `if "error" in entities:` raises
`HTTPException(status_code=500, detail=entities["error"])`; `none` means
the endpoint proceeds to build the success response.  The check is
modelled on dictionary results, the shape the endpoint's response model
expects. -/
def endpointEntityCheck (entities : JVal) : Option (ℕ × JVal) :=
  match entities with
  | .obj fields =>
    if fields.any (fun p => p.1 = "error") then
      some (500, (fields.lookup "error").getD .null)
    else none
  | _ => none

/-! ### Claims C7, C10 -/

/-- C7: for a schema-supported document type, a request-level failure of
the model-service call yields exactly the connect-error dictionary; a
successful call whose returned payload does not parse as JSON yields
exactly the malformed-response dictionary; and the result depends only
on the outcome of the first call — no retry is attempted. -/
theorem extract_entities_error_paths
    (post : ℕ → String → PostOutcome) (jsonParse : String → Option JVal)
    (document_text document_type : String) (field_list : List String)
    (hs : DOCUMENT_SCHEMAS.lookup (toLowerStr document_type) = some field_list) :
    (∀ m, post 0 (promptFor document_type field_list document_text) = .requestError m →
      extract_entities_with_llm post jsonParse document_text document_type
        = errObj "Failed to connect to the local LLM service.") ∧
    (∀ rf, post 0 (promptFor document_type field_list document_text) = .ok rf →
      jsonParse (rf.getD "\x7b\x7d") = none →
      extract_entities_with_llm post jsonParse document_text document_type
        = errObj "LLM returned a malformed response.") ∧
    (∀ post' : ℕ → String → PostOutcome, (∀ s, post' 0 s = post 0 s) →
      extract_entities_with_llm post' jsonParse document_text document_type
        = extract_entities_with_llm post jsonParse document_text document_type) := by
  refine ⟨?_, ?_, ?_⟩
  · intro m hm
    simp [extract_entities_with_llm, hs, hm]
  · intro rf hrf hjp
    simp [extract_entities_with_llm, hs, hrf, hjp]
  · intro post' hp
    simp [extract_entities_with_llm, hs, hp]

/-- Concrete HTTP and JSON oracles for the witnesses: a connection
failure, a success with a non-JSON payload, and a success whose payload
parses to an object carrying an "error" key plus a key outside the
schema. -/
def postConnFail : ℕ → String → PostOutcome := fun _ _ => .requestError "connection refused"

def postBadPayload : ℕ → String → PostOutcome := fun _ _ => .ok (some "not json")

def jsonParseNone : String → Option JVal := fun _ => none

theorem extract_entities_error_paths_witness :
    DOCUMENT_SCHEMAS.lookup (toLowerStr "invoice")
      = some ["invoice_number", "vendor_name", "customer_name", "date", "total_amount"] ∧
    extract_entities_with_llm postConnFail jsonParseNone "Invoice INV-7" "invoice"
      = errObj "Failed to connect to the local LLM service." ∧
    extract_entities_with_llm postBadPayload jsonParseNone "Invoice INV-7" "invoice"
      = errObj "LLM returned a malformed response." := by
  refine ⟨by decide, ?_, ?_⟩
  · exact (extract_entities_error_paths postConnFail jsonParseNone "Invoice INV-7" "invoice"
      ["invoice_number", "vendor_name", "customer_name", "date", "total_amount"]
      (by decide)).1 "connection refused" rfl
  · exact (extract_entities_error_paths postBadPayload jsonParseNone "Invoice INV-7" "invoice"
      ["invoice_number", "vendor_name", "customer_name", "date", "total_amount"]
      (by decide)).2.1 (some "not json") rfl rfl

/-- C10: a payload that parses as a JSON object is returned verbatim —
its keys are not restricted to the schema's field list and its values
are not validated against the value/confidence shape — and when that
object contains an "error" key the endpoint raises HTTP 500 with the
key's value as detail instead of returning the entities. -/
theorem extract_entities_verbatim
    (post : ℕ → String → PostOutcome) (jsonParse : String → Option JVal)
    (document_text document_type : String) (field_list : List String)
    (hs : DOCUMENT_SCHEMAS.lookup (toLowerStr document_type) = some field_list)
    (rt : String)
    (hrt : post 0 (promptFor document_type field_list document_text) = .ok (some rt))
    (fields : List (String × JVal)) (hjp : jsonParse rt = some (.obj fields)) :
    extract_entities_with_llm post jsonParse document_text document_type = .obj fields ∧
    (fields.any (fun p => p.1 = "error") = true →
      endpointEntityCheck
          (extract_entities_with_llm post jsonParse document_text document_type)
        = some (500, (fields.lookup "error").getD .null)) := by
  have h1 : extract_entities_with_llm post jsonParse document_text document_type
      = .obj fields := by
    simp [extract_entities_with_llm, hs, hrt, hjp]
  refine ⟨h1, fun herr => ?_⟩
  rw [h1]
  simp [endpointEntityCheck, herr]

def postEnt : ℕ → String → PostOutcome := fun _ _ => .ok (some "payload")

def jsonParseEnt : String → Option JVal := fun s =>
  if s = "payload" then
    some (.obj [("error", .str "model says no"), ("extra_key", .num 2)])
  else none

theorem extract_entities_verbatim_witness :
    extract_entities_with_llm postEnt jsonParseEnt "receipt text" "receipt"
      = .obj [("error", .str "model says no"), ("extra_key", .num 2)] ∧
    endpointEntityCheck (extract_entities_with_llm postEnt jsonParseEnt "receipt text" "receipt")
      = some (500, .str "model says no") := by
  have h := extract_entities_verbatim postEnt jsonParseEnt "receipt text" "receipt"
    ["store_name", "date", "total_amount", "items"] (by decide) "payload" rfl
    [("error", .str "model says no"), ("extra_key", .num 2)] rfl
  exact ⟨h.1, h.2 (by decide)⟩

/-! ## scripts/build_vector_db.py — OCR phase

File paths are parent-path/name pairs (`str(doc_path)` and
`Path(data["source_file"])` round-trip between the two in the source, so
records store the pair directly).  OCR itself is the oracle `ocrText`.
The checkpoint file is the list of its parsed records; the claims are
about corpora whose checkpoint lines are well-formed.  `imap_unordered`
delivers worker results in a scheduler-dependent order; the model appends
them in corpus order, which fixes one representative order and all the
counted/set-level facts below. -/

structure FPath where
  parent : String
  name : String
deriving DecidableEq

/-- One checkpoint line (written at src/scripts/build_vector_db.py
lines 68-72 and 164-167): the OCR text, the metadata fields, and the
source path. -/
structure CkptRecord where
  text : String
  document_type : String
  augmentation : String
  source_file : FPath
deriving DecidableEq

/-- `PREPROCESSING_OPTIONS` (src/scripts/build_vector_db.py line 30). -/
def PREPROCESSING_OPTIONS : List (Option String) :=
  [none, some "deskew", some "noise", some "threshold"]

/-- Python `str(...)` on the option: `str(None) == "None"`. -/
def pyStrOfOption : Option String → String
  | none => "None"
  | some s => s

/-- Truthiness of `text.strip()`: the string has a non-whitespace
character. -/
def stripTruthy (s : String) : Bool := s.toList.any (fun c => !c.isWhitespace)

/-- `ocr_worker` (src/scripts/build_vector_db.py lines 43-77): for its
file it loops over every preprocessing option, extracts text, and emits
one record per option whose text is non-blank, tagged with the
augmentation name and the parent-directory label. -/
def ocr_worker (ocrText : FPath → Option String → String)
    (doc_path : FPath) : List CkptRecord :=
  PREPROCESSING_OPTIONS.filterMap (fun transformation =>
    let text := ocrText doc_path transformation
    if stripTruthy text then
      some { text := text
             document_type := (pyNameChars doc_path.parent).asString
             augmentation := pyStrOfOption transformation
             source_file := doc_path }
    else none)

/-- The resume logic plus the parallel-OCR loop of `main`
(src/scripts/build_vector_db.py lines 116-169): subtract the
already-checkpointed source paths from the corpus, run `ocr_worker` on
each remaining file, and append each worker's records to the checkpoint
file.  Returns (files processed this run, checkpoint contents after the
OCR phase). -/
def ocrPhase (corpus : List FPath) (checkpoint : List CkptRecord)
    (ocrText : FPath → Option String → String) :
    List FPath × List CkptRecord :=
  let processed_paths := checkpoint.map (fun r => r.source_file)
  let remaining_paths := corpus.filter (fun p => p ∉ processed_paths)
  (remaining_paths, checkpoint ++ remaining_paths.flatMap (ocr_worker ocrText))

/-! ### Claim C3 -/

/-- A one-file corpus for the counterexample. -/
def corpusFile : FPath := ⟨"data/sample_docs/invoice", "a.png"⟩

/-- C3 counterexample: M = 1 supported file, N = 0 checkpointed paths,
every preprocessing variant yields non-blank text.  The re-run does OCR
exactly the 1 = M − N file, but afterwards the checkpoint holds 4
records — one per augmentation variant — not M = 1, and their source
paths are all the same file, so the no-duplicate-source-paths part fails
too. -/
theorem checkpoint_has_record_per_variant :
    (ocrPhase [corpusFile] [] (fun _ _ => "hello")).1.length = 1 ∧
    (ocrPhase [corpusFile] [] (fun _ _ => "hello")).2.length = 4 ∧
    ¬ ((ocrPhase [corpusFile] [] (fun _ _ => "hello")).2.map
        (fun r => r.source_file)).Nodup := by
  decide

/-- C3 amended: a re-run does OCR on exactly the M − N corpus files whose
paths are not yet checkpointed (conjuncts 1 and 2: the processed list is
the corpus minus the checkpointed paths, and its length plus N is M);
afterwards the checkpoint holds the prior records plus, for each newly
processed file, one record per preprocessing variant (of the 4) whose
text is non-blank — so up to 4·(M − N) new records, whose source paths
repeat across a file's variants rather than being M distinct records. -/
theorem ocrPhase_resume (corpus : List FPath) (checkpoint : List CkptRecord)
    (ocrText : FPath → Option String → String) (hnd : corpus.Nodup) :
    (ocrPhase corpus checkpoint ocrText).1
      = corpus.filter (fun p => p ∉ checkpoint.map (fun r => r.source_file)) ∧
    (ocrPhase corpus checkpoint ocrText).1.length
        + (corpus.filter (fun p => p ∈ checkpoint.map (fun r => r.source_file))).length
      = corpus.length ∧
    (ocrPhase corpus checkpoint ocrText).2
      = checkpoint
          ++ (ocrPhase corpus checkpoint ocrText).1.flatMap (ocr_worker ocrText) ∧
    (∀ p, (ocr_worker ocrText p).length
        = (PREPROCESSING_OPTIONS.filter (fun t => stripTruthy (ocrText p t))).length) ∧
    (∀ p, ∀ r ∈ ocr_worker ocrText p, r.source_file = p) := by
  refine ⟨rfl, ?_, rfl, ?_, ?_⟩
  · show (corpus.filter (fun p => p ∉ checkpoint.map (fun r => r.source_file))).length
        + (corpus.filter (fun p => p ∈ checkpoint.map (fun r => r.source_file))).length
      = corpus.length
    induction corpus with
    | nil => rfl
    | cons a as ih =>
      have ih' := ih (List.Nodup.of_cons hnd)
      by_cases ha : a ∈ checkpoint.map (fun r => r.source_file)
      · simp only [List.filter_cons]
        simp [ha, ← ih']
        omega
      · simp only [List.filter_cons]
        simp [ha, ← ih']
        omega
  · intro p
    have haux : ∀ opts : List (Option String),
        (opts.filterMap (fun transformation =>
          let text := ocrText p transformation
          if stripTruthy text then
            some ({ text := text
                    document_type := (pyNameChars p.parent).asString
                    augmentation := pyStrOfOption transformation
                    source_file := p } : CkptRecord)
          else none)).length
        = (opts.filter (fun t => stripTruthy (ocrText p t))).length := by
      intro opts
      induction opts with
      | nil => rfl
      | cons t ts ih =>
        by_cases h : stripTruthy (ocrText p t)
        · simp [List.filterMap_cons, List.filter_cons, h, ih]
        · simp [List.filterMap_cons, List.filter_cons, h, ih]
    exact haux PREPROCESSING_OPTIONS
  · intro p r hr
    simp only [ocr_worker, List.mem_filterMap] at hr
    obtain ⟨t, ht, hf⟩ := hr
    by_cases h : stripTruthy (ocrText p t)
    · simp only [h, if_true] at hf
      cases hf
      rfl
    · simp [h] at hf

/-- A second corpus file and a checkpoint already holding one of its
records, for the witness. -/
def fpLetter : FPath := ⟨"data/sample_docs/letter", "b.png"⟩

def ckptLetter : List CkptRecord :=
  [{ text := "Dear Sir", document_type := "letter", augmentation := "None",
     source_file := fpLetter }]

def otextW : FPath → Option String → String := fun _ t => pyStrOfOption t

theorem ocrPhase_resume_witness :
    ([corpusFile, fpLetter] : List FPath).Nodup ∧
    ((ocrPhase [corpusFile, fpLetter] ckptLetter otextW).1
      = [corpusFile, fpLetter].filter
          (fun p => p ∉ ckptLetter.map (fun r => r.source_file)) ∧
    (ocrPhase [corpusFile, fpLetter] ckptLetter otextW).1.length
        + ([corpusFile, fpLetter].filter
            (fun p => p ∈ ckptLetter.map (fun r => r.source_file))).length
      = ([corpusFile, fpLetter] : List FPath).length ∧
    (ocrPhase [corpusFile, fpLetter] ckptLetter otextW).2
      = ckptLetter
          ++ (ocrPhase [corpusFile, fpLetter] ckptLetter otextW).1.flatMap
              (ocr_worker otextW) ∧
    (∀ p, (ocr_worker otextW p).length
        = (PREPROCESSING_OPTIONS.filter (fun t => stripTruthy (otextW p t))).length) ∧
    (∀ p, ∀ r ∈ ocr_worker otextW p, r.source_file = p)) :=
  ⟨by decide, ocrPhase_resume [corpusFile, fpLetter] ckptLetter otextW (by decide)⟩

end DocExtract
